import Mathlib

/-!
Shallow embedding of the BaristaBot café chatbot (`baristabot_app.py`):
the order state record, the tool catalog functions, the order node
(dispatch loop over a batch of tool invocation requests), the turn
router, the per-turn step driver, and the startup credential check.
Randomness (Python's `random.randint`) is modelled by an explicit
entropy seed threaded through the node.
-/

namespace Barista

/-- Argument mapping of a tool invocation request: the union of all
argument schemas in the catalog (`drink`/`modifiers` for
`add_to_order`, `order` for `confirm_order`/`place_order`).  The
Python dict lookup only touches the keys the dispatch branch reads, so
fields irrelevant to a given tool are simply ignored. -/
structure ToolArgs where
  drink : String
  modifiers : List String
  order : List String
deriving DecidableEq, Repr

/-- A tool invocation request carried by an assistant message: a tool
name, an argument mapping, and a correlation identifier (`id`). -/
structure ToolCall where
  name : String
  args : ToolArgs
  id : String
deriving DecidableEq, Repr

/-- One conversational message.  `tool_calls = none` models a message
object without the `tool_calls` attribute (such as a plain
`("user", text)` tuple), while `some l` models a message carrying the
attribute with list `l` — the distinction matters because the router
tests `hasattr(msg, "tool_calls")`.  The `name` and `tool_call_id`
fields are meaningful only for tool-result messages (the arguments of
the `ToolMessage` constructor at line 109 of the source). -/
structure Msg where
  role : String
  content : String
  tool_calls : Option (List ToolCall)
  name : String
  tool_call_id : String
deriving DecidableEq, Repr

/-- Placeholder for `state["messages"][-1]` on an empty list (which
would raise in Python; the node is only ever reached after at least
one message exists, so modelled runs never consult this default). -/
def defaultMsg : Msg := ⟨"", "", none, "", ""⟩

/-- `OrderState` (source lines 28-31): the session record threaded
through every graph step. -/
structure OrderState where
  messages : List Msg
  order : List String
  finished : Bool
deriving DecidableEq, Repr

/-- The initial session state (source line 134). -/
def initial_state : OrderState := ⟨[], [], false⟩

/-- Python's `random.randint lo hi` (both endpoints inclusive),
modelled as a function of an explicit entropy seed: the result is
`lo + seed % (hi - lo + 1)`, ranging over exactly the closed interval
`[lo, hi]` when `lo ≤ hi`. -/
def randint (lo hi seed : Nat) : Nat := lo + seed % (hi - lo + 1)

/-- The static menu text returned by `get_menu` (source lines 41-49). -/
def MENU : String :=
  "\nMENU:\nCoffee Drinks:\nEspresso, Americano, Cold Brew, Latte, Cappuccino, Mocha\n\nModifiers:\nMilk: Whole, Oat, Almond\nSweeteners: Vanilla, Hazelnut, Caramel\n"

/-- Tool `get_menu` (source lines 51-54): pure lookup of the menu. -/
def get_menu : String := MENU

/-- Tool `add_to_order` (source lines 57-60): confirmation text for a
drink with modifiers (the tool function itself mutates nothing). -/
def add_to_order (drink : String) (modifiers : List String) : String :=
  "Added " ++ drink ++ " with " ++
    (if modifiers.isEmpty then "no modifiers" else String.intercalate ", " modifiers) ++ "."

/-- Tool `confirm_order` (source lines 63-66). -/
def confirm_order (order : List String) : String :=
  "Your current order is: " ++ String.intercalate ", " order ++ "."

/-- Tool `clear_order` (source lines 69-72). -/
def clear_order : String := "Order cleared."

/-- Tool `place_order` (source lines 75-78): returns
`randint(1, 5)`, an ETA in minutes. -/
def place_order (seed : Nat) : Nat := randint 1 5 seed

/-- The names registered in the tool catalog
(`tools = [get_menu, add_to_order, confirm_order, clear_order, place_order]`,
source line 115). -/
def registered_tool_names : List String :=
  ["get_menu", "add_to_order", "confirm_order", "clear_order", "place_order"]

/-- A line item as constructed at source line 92:
`f"{drink} ({', '.join(modifiers) if modifiers else 'no modifiers'})"`. -/
def line_item (drink : String) (modifiers : List String) : String :=
  drink ++ " (" ++
    (if modifiers.isEmpty then "no modifiers" else String.intercalate ", " modifiers) ++ ")"

/-- The line item a given `add_to_order` request constructs. -/
def item_of (tc : ToolCall) : String := line_item tc.args.drink tc.args.modifiers

/-- The mutable loop state of `order_node` apart from the outbound
message list: the local `order` list, the `order_placed` flag
(initialised `False` at source line 86), and the remaining entropy
seeds for `randint` draws. -/
structure Core where
  order : List String
  order_placed : Bool
  seeds : List Nat
deriving DecidableEq, Repr

/-- Build the `ToolMessage(content=response, name=tool_call["name"],
tool_call_id=tool_call["id"])` of source line 109. -/
def toolMsg (content name id : String) : Msg :=
  ⟨"tool", content, none, name, id⟩

/-- One iteration of the dispatch loop of `order_node` (source lines
88-109): switch on the request's name, update the loop state, and emit
exactly one tool-result message. -/
def processToolCall (tc : ToolCall) (c : Core) : Core × Msg :=
  if tc.name = "add_to_order" then
    let order := c.order ++ [line_item tc.args.drink tc.args.modifiers]
    ({ c with order := order },
     toolMsg ("Order updated: " ++ String.intercalate ", " order ++ ".") tc.name tc.id)
  else if tc.name = "confirm_order" then
    (c,
     toolMsg ("Your order is: " ++ String.intercalate ", " c.order ++ ". Is this correct?")
       tc.name tc.id)
  else if tc.name = "clear_order" then
    ({ c with order := [] }, toolMsg "Order cleared." tc.name tc.id)
  else if tc.name = "place_order" then
    ({ c with order_placed := true, seeds := c.seeds.tail },
     toolMsg ("Order placed! ETA: " ++ toString (randint 1 5 (c.seeds.headD 0)) ++ " minutes.")
       tc.name tc.id)
  else
    (c, toolMsg "Unrecognized action." tc.name tc.id)

/-- The full dispatch loop of `order_node`: process the batch of
requests in order, threading the loop state and collecting one
outbound message per request (the `outbound_msgs.append` of source
line 109). -/
def order_node_loop : List ToolCall → Core → Core × List Msg
  | [], c => (c, [])
  | tc :: tcs, c =>
    let r := processToolCall tc c
    let rest := order_node_loop tcs r.1
    (rest.1, r.2 :: rest.2)

/-- The batch a state presents to the order node: the latest message's
`tool_calls` list (source line 88). -/
def batch_of (state : OrderState) : List ToolCall :=
  ((state.messages.getLastD defaultMsg).tool_calls).getD []

/-- `order_node` (source lines 82-111) as one graph step: read the
latest message's tool calls, run the dispatch loop starting from
`order_placed = False`, and return the updated state.  The returned
`messages` field reflects the `add_messages` reducer of the state
graph (outbound tool messages are appended to the history); `order`
and `finished` replace the previous values, `finished` being set to
the loop's final `order_placed`. -/
def order_node (state : OrderState) (seeds : List Nat) : OrderState :=
  let r := order_node_loop (batch_of state) ⟨state.order, false, seeds⟩
  ⟨state.messages ++ r.2, r.1.order, r.1.order_placed⟩

/-- The conditional edge out of the chatbot node (source line 123):
`"ordering" if hasattr(state["messages"][-1], "tool_calls") else "chatbot"`.
Note it tests for the presence of the attribute, not for a non-empty
list, and its else branch targets `"chatbot"`, not the end of the
graph. -/
def route_after_chatbot (state : OrderState) : String :=
  if ((state.messages.getLastD defaultMsg).tool_calls).isSome then "ordering" else "chatbot"

/-- An assistant message carrying a batch of tool invocation
requests (the shape of `llm_with_tools.invoke`'s output when it
requests tools). -/
def assistantMsg (tcs : List ToolCall) : Msg :=
  ⟨"assistant", "", some tcs, "", ""⟩

/-- One `chatbot → ordering` cycle of the session graph: the chatbot
appends an assistant message carrying a batch of tool calls, then
`order_node` processes that batch (edges at source lines 120-125). -/
def chatStep (s : OrderState) (b : List ToolCall × List Nat) : OrderState :=
  order_node { s with messages := s.messages ++ [assistantMsg b.1] } b.2

/-- A sequence of `order_node` steps within one session, each driven
by the batch of tool calls the assistant requested for it (paired with
the entropy seeds for that step's `randint` draws). -/
def runSteps (s : OrderState) (batches : List (List ToolCall × List Nat)) : OrderState :=
  batches.foldl chatStep s

/-- Python truthiness of the optional credential string:
`os.getenv` returns `None` when the variable is unset, and
`if not GOOGLE_API_KEY` also treats the empty string as absent. -/
def truthy : Option String → Bool
  | none => false
  | some s => s != ""

/-- The module-level credential check (source lines 18-20): raise
`ValueError` when the key is falsy, succeed otherwise. -/
def startup_check (key : Option String) : Except String Unit :=
  if truthy key then Except.ok ()
  else Except.error "Google API key not found! Add it to a .env file."

/-- The program from process start: module initialisation runs the
credential check (at import time, before the UI accepts any input),
and only then does the session process its batches.  A missing
credential therefore fails before any request is handled, and a
present credential never fails the run on this account. -/
def run_app (key : Option String) (batches : List (List ToolCall × List Nat)) :
    Except String OrderState :=
  match startup_check key with
  | Except.error e => Except.error e
  | Except.ok _ => Except.ok (runSteps initial_state batches)

/-! ### Helper lemmas about the dispatch loop -/

/-- Every dispatch branch emits a tool-result message carrying the
request's own name and correlation identifier. -/
lemma processToolCall_msg_fields (tc : ToolCall) (c : Core) :
    ((processToolCall tc c).2).role = "tool" ∧
    ((processToolCall tc c).2).name = tc.name ∧
    ((processToolCall tc c).2).tool_call_id = tc.id := by
  unfold processToolCall toolMsg
  split_ifs <;> exact ⟨rfl, rfl, rfl⟩

/-- One dispatch iteration sets `order_placed` exactly when the
request is named `place_order` (otherwise it keeps the flag). -/
lemma processToolCall_placed (tc : ToolCall) (c : Core) :
    ((processToolCall tc c).1).order_placed
      = (c.order_placed || (tc.name == "place_order")) := by
  unfold processToolCall
  split_ifs with h1 h2 h3 h4 <;> simp_all

/-- The loop's final `order_placed` is the initial flag or-ed with
whether any request in the batch is named `place_order`. -/
lemma loop_placed : ∀ (tcs : List ToolCall) (c : Core),
    ((order_node_loop tcs c).1).order_placed
      = (c.order_placed || tcs.any (fun tc => tc.name == "place_order"))
  | [], c => by simp [order_node_loop]
  | tc :: tcs, c => by
    simp only [order_node_loop, List.any_cons]
    rw [loop_placed tcs _, processToolCall_placed, Bool.or_assoc]

/-- The loop emits one message per request, in request order, each
one a tool-result correlated by the request's name and identifier. -/
lemma loop_map_correlate : ∀ (tcs : List ToolCall) (c : Core),
    ((order_node_loop tcs c).2).map (fun m => (m.role, m.name, m.tool_call_id))
      = tcs.map (fun tc => ("tool", tc.name, tc.id))
  | [], _ => by simp [order_node_loop]
  | tc :: tcs, c => by
    obtain ⟨h1, h2, h3⟩ := processToolCall_msg_fields tc c
    simp [order_node_loop, loop_map_correlate tcs _, h1, h2, h3]

/-- The loop emits exactly as many messages as there are requests. -/
lemma loop_length (tcs : List ToolCall) (c : Core) :
    ((order_node_loop tcs c).2).length = tcs.length := by
  have h := congrArg List.length (loop_map_correlate tcs c)
  simpa using h

/-- The batch a chat step presents to the order node is exactly the
batch of the assistant message it just appended. -/
lemma batch_of_append (s : OrderState) (tcs : List ToolCall) :
    batch_of { s with messages := s.messages ++ [assistantMsg tcs] } = tcs := by
  simp [batch_of, List.getLastD_concat, assistantMsg]

/-- The `finished` flag returned by a chat step records only whether
that step's own batch contained a `place_order` request. -/
lemma chatStep_finished (s : OrderState) (b : List ToolCall × List Nat) :
    (chatStep s b).finished = b.1.any (fun tc => tc.name == "place_order") := by
  simp [chatStep, order_node, batch_of_append, loop_placed]

/-- The replies an all-`add_to_order` batch produces, one per request:
each echoes the order as it stands right after that request's append. -/
def add_replies (o : List String) : List ToolCall → List Msg
  | [] => []
  | tc :: tcs =>
    toolMsg ("Order updated: " ++ String.intercalate ", " (o ++ [item_of tc]) ++ ".")
        tc.name tc.id ::
      add_replies (o ++ [item_of tc]) tcs

/-- Characterisation of the dispatch loop on a batch consisting only
of `add_to_order` requests: the order grows by exactly one line item
per request, in request order; the flag and seeds are untouched; and
the replies are `add_replies`. -/
lemma add_loop_eq : ∀ (tcs : List ToolCall) (o : List String) (p : Bool) (s : List Nat),
    (∀ tc ∈ tcs, tc.name = "add_to_order") →
    order_node_loop tcs ⟨o, p, s⟩ = (⟨o ++ tcs.map item_of, p, s⟩, add_replies o tcs)
  | [], o, p, s, _ => by simp [order_node_loop, add_replies]
  | tc :: tcs, o, p, s, hall => by
    have hname : tc.name = "add_to_order" := hall tc (List.mem_cons_self tc tcs)
    have htail : ∀ t ∈ tcs, t.name = "add_to_order" :=
      fun t ht => hall t (List.mem_cons_of_mem tc ht)
    have hrec := add_loop_eq tcs (o ++ [item_of tc]) p s htail
    have h1 := congrArg Prod.fst hrec
    have h2 := congrArg Prod.snd hrec
    simp only [item_of] at h1 h2
    simp [order_node_loop, processToolCall, hname, add_replies, item_of, h1, h2,
      List.append_assoc]

/-- `add_replies` yields one reply per request. -/
lemma add_replies_length : ∀ (tcs : List ToolCall) (o : List String),
    (add_replies o tcs).length = tcs.length
  | [], _ => rfl
  | tc :: tcs, o => by
    simp [add_replies, add_replies_length tcs (o ++ [item_of tc])]

/-- The `i`-th reply of an all-`add_to_order` batch lists exactly the
order contents after the first `i + 1` appends. -/
lemma add_replies_getD : ∀ (tcs : List ToolCall) (o : List String) (i : Nat),
    i < tcs.length →
    ((add_replies o tcs).getD i defaultMsg).content
      = "Order updated: " ++
          String.intercalate ", " (o ++ (tcs.take (i + 1)).map item_of) ++ "."
  | [], _, i, h => by simp at h
  | tc :: tcs, o, 0, _ => by simp [add_replies, toolMsg]
  | tc :: tcs, o, i + 1, h => by
    have hrec := add_replies_getD tcs (o ++ [item_of tc]) i (by simpa using h)
    simpa [add_replies, List.append_assoc] using hrec

/-- The `confirm_order` branch of the dispatch (source lines 95-96):
no mutation, reply restates the order held in the loop state. -/
lemma processToolCall_confirm (tc : ToolCall) (c : Core) (h : tc.name = "confirm_order") :
    processToolCall tc c
      = (c, toolMsg ("Your order is: " ++ String.intercalate ", " c.order ++ ". Is this correct?")
          tc.name tc.id) := by
  simp [processToolCall, h]

/-- The `clear_order` branch of the dispatch (source lines 98-100). -/
lemma processToolCall_clear (tc : ToolCall) (c : Core) (h : tc.name = "clear_order") :
    processToolCall tc c = ({ c with order := [] }, toolMsg "Order cleared." tc.name tc.id) := by
  simp [processToolCall, h]

/-- The `place_order` branch of the dispatch (source lines 102-104). -/
lemma processToolCall_place (tc : ToolCall) (c : Core) (h : tc.name = "place_order") :
    processToolCall tc c
      = ({ c with order_placed := true, seeds := c.seeds.tail },
         toolMsg ("Order placed! ETA: " ++ toString (randint 1 5 (c.seeds.headD 0))
             ++ " minutes.")
           tc.name tc.id) := by
  simp [processToolCall, h]

/-- The fallback branch of the dispatch (source lines 106-107): any
name the switch does not handle leaves the loop state untouched. -/
lemma processToolCall_other (tc : ToolCall) (c : Core)
    (h1 : tc.name ≠ "add_to_order") (h2 : tc.name ≠ "confirm_order")
    (h3 : tc.name ≠ "clear_order") (h4 : tc.name ≠ "place_order") :
    processToolCall tc c = (c, toolMsg "Unrecognized action." tc.name tc.id) := by
  simp [processToolCall, h1, h2, h3, h4]

/-! ### The claims -/

/-- C1 (counterexample): the `finished` flag is not persistent across
`order_node` steps.  Starting from the initial state, a step whose
batch is a single `place_order` request leaves `finished = true`, but
a subsequent step whose batch is a single `confirm_order` request
resets it to `false`, because each step recomputes `finished` from its
own `order_placed` local, which is initialised `False`. -/
theorem C1_counterexample :
    (runSteps initial_state
        [([⟨"place_order", ⟨"", [], []⟩, "p1"⟩], [0])]).finished = true ∧
    (runSteps initial_state
        [([⟨"place_order", ⟨"", [], []⟩, "p1"⟩], [0]),
         ([⟨"confirm_order", ⟨"", [], []⟩, "q1"⟩], [0])]).finished = false := by
  constructor <;> rfl

/-- C1 (amended): after any sequence of `order_node` steps, the
`finished` flag equals whether the *last* step's batch contained a
`place_order` request — it is set true by a placement invocation but
is reset to false by any later step whose batch lacks one. -/
theorem C1_finished_reflects_last_batch (s : OrderState)
    (batches : List (List ToolCall × List Nat)) (b : List ToolCall × List Nat) :
    (runSteps s (batches ++ [b])).finished
      = b.1.any (fun tc => tc.name == "place_order") := by
  simp only [runSteps, List.foldl_append, List.foldl_cons, List.foldl_nil]
  exact chatStep_finished _ b

/-- C2: the conditional edge out of the chatbot tests
`hasattr(msg, "tool_calls")`, so a latest assistant message carrying
an *empty* tool-call list still routes to the ordering node rather
than stopping, and a message without the attribute routes back to the
chatbot node — the router never signals turn completion, contradicting
the claimed {has-tool-calls → dispatch, no-tool-calls → stop}
behaviour. -/
theorem C2_router_empty_calls_bug :
    route_after_chatbot ⟨[⟨"assistant", "Sure!", some [], "", ""⟩], [], false⟩ = "ordering" ∧
    route_after_chatbot ⟨[⟨"assistant", "Hello!", none, "", ""⟩], [], false⟩ = "chatbot" :=
  ⟨rfl, rfl⟩

/-- C6: in a single `order_node` step the returned `finished` flag is
true exactly when at least one request of the step's batch is named
`place_order`; the right-hand side does not mention the incoming flag
`b`, so a batch without a placement returns `finished = false` even
when `b = true`. -/
theorem C6_finished_iff_place_order_in_batch
    (msgs : List Msg) (order : List String) (b : Bool) (seeds : List Nat) :
    (order_node ⟨msgs, order, b⟩ seeds).finished
      = (batch_of ⟨msgs, order, b⟩).any (fun tc => tc.name == "place_order") := by
  simp [order_node, loop_placed]

/-- C9: the order node produces exactly one tool-result message per
request of the batch, appended after the existing history in request
order, each carrying the name and correlation identifier of the
request it answers. -/
theorem C9_one_result_per_request (s : OrderState) (seeds : List Nat) :
    ∃ outbound : List Msg,
      (order_node s seeds).messages = s.messages ++ outbound ∧
      outbound.length = (batch_of s).length ∧
      outbound.map (fun m => (m.role, m.name, m.tool_call_id))
        = (batch_of s).map (fun tc => ("tool", tc.name, tc.id)) :=
  ⟨(order_node_loop (batch_of s) ⟨s.order, false, seeds⟩).2, rfl,
    loop_length _ _, loop_map_correlate _ _⟩

/-- C3: for every sequence of `add_to_order` invocations processed by
the dispatch loop, each invocation appends exactly one line item
(`drink (modifiers)`, or `drink (no modifiers)` for an empty modifier
list), so the final order is the initial order extended by one item
per invocation in request order, its length grows by the number of
invocations, one reply is produced per invocation, and the `i`-th
reply lists exactly the order contents as they stand after the first
`i + 1` appends, comma-separated. -/
theorem C3_add_to_order_appends (initial : List String) (tcs : List ToolCall)
    (seeds : List Nat) (hall : ∀ tc ∈ tcs, tc.name = "add_to_order") :
    ((order_node_loop tcs ⟨initial, false, seeds⟩).1).order = initial ++ tcs.map item_of ∧
    ((order_node_loop tcs ⟨initial, false, seeds⟩).1).order.length
      = initial.length + tcs.length ∧
    ((order_node_loop tcs ⟨initial, false, seeds⟩).2).length = tcs.length ∧
    ∀ i, i < tcs.length →
      (((order_node_loop tcs ⟨initial, false, seeds⟩).2).getD i defaultMsg).content
        = "Order updated: " ++
            String.intercalate ", " (initial ++ (tcs.take (i + 1)).map item_of) ++ "." := by
  have heq := add_loop_eq tcs initial false seeds hall
  have h1 := congrArg Prod.fst heq
  have h2 := congrArg Prod.snd heq
  refine ⟨?_, ?_, ?_, ?_⟩
  · rw [h1]
  · rw [h1]; simp
  · rw [h2, add_replies_length]
  · intro i hi
    rw [h2]
    exact add_replies_getD tcs initial i hi

/-- Witness for C3: the worked example of the spec — a Latte with Oat
and Vanilla, then an Espresso with no modifiers. -/
def c3_batch : List ToolCall :=
  [⟨"add_to_order", ⟨"Latte", ["Oat", "Vanilla"], []⟩, "a1"⟩,
   ⟨"add_to_order", ⟨"Espresso", [], []⟩, "a2"⟩]

/-- C3 at the concrete two-invocation batch of the spec's example. -/
theorem C3_add_to_order_appends_witness :
    (∀ tc ∈ c3_batch, tc.name = "add_to_order") ∧
    (((order_node_loop c3_batch ⟨[], false, []⟩).1).order = [] ++ c3_batch.map item_of ∧
     ((order_node_loop c3_batch ⟨[], false, []⟩).1).order.length
       = ([] : List String).length + c3_batch.length ∧
     ((order_node_loop c3_batch ⟨[], false, []⟩).2).length = c3_batch.length ∧
     ∀ i, i < c3_batch.length →
       (((order_node_loop c3_batch ⟨[], false, []⟩).2).getD i defaultMsg).content
         = "Order updated: " ++
             String.intercalate ", " ([] ++ (c3_batch.take (i + 1)).map item_of) ++ ".") :=
  ⟨by decide, C3_add_to_order_appends [] c3_batch [] (by decide)⟩

/-- C4: a `place_order` invocation sets the `order_placed` flag, the
`place_order` tool function's return value lies in `[1, 5]`, and the
integer stated in the node's reply text is likewise in `[1, 5]`. -/
theorem C4_place_order_eta_range (seed : Nat) (tc : ToolCall) (c : Core)
    (h : tc.name = "place_order") :
    (1 ≤ place_order seed ∧ place_order seed ≤ 5) ∧
    ((processToolCall tc c).1).order_placed = true ∧
    ∃ eta : Nat, 1 ≤ eta ∧ eta ≤ 5 ∧
      ((processToolCall tc c).2).content
        = "Order placed! ETA: " ++ toString eta ++ " minutes." := by
  refine ⟨⟨?_, ?_⟩, ?_, ⟨randint 1 5 (c.seeds.headD 0), ?_, ?_, ?_⟩⟩
  · unfold place_order randint; omega
  · unfold place_order randint; omega
  · rw [processToolCall_place tc c h]
  · unfold randint; omega
  · unfold randint; omega
  · rw [processToolCall_place tc c h]; rfl

/-- C4 at seed 7 and a concrete `place_order` request. -/
theorem C4_place_order_eta_range_witness :
    (⟨"place_order", ⟨"", [], []⟩, "w4"⟩ : ToolCall).name = "place_order" ∧
    ((1 ≤ place_order 7 ∧ place_order 7 ≤ 5) ∧
     ((processToolCall ⟨"place_order", ⟨"", [], []⟩, "w4"⟩ ⟨[], false, [3]⟩).1).order_placed
       = true ∧
     ∃ eta : Nat, 1 ≤ eta ∧ eta ≤ 5 ∧
       ((processToolCall ⟨"place_order", ⟨"", [], []⟩, "w4"⟩ ⟨[], false, [3]⟩).2).content
         = "Order placed! ETA: " ++ toString eta ++ " minutes.") :=
  ⟨rfl, C4_place_order_eta_range 7 ⟨"place_order", ⟨"", [], []⟩, "w4"⟩ ⟨[], false, [3]⟩ rfl⟩

/-- C5: dispatching a request whose name is not one of the registered
catalog names leaves the loop state (order, placed flag, seeds)
completely unchanged and emits exactly the fixed unrecognized-action
reply, correlated to the offending request. -/
theorem C5_unregistered_no_mutation (tc : ToolCall) (c : Core)
    (h : tc.name ∉ registered_tool_names) :
    (processToolCall tc c).1 = c ∧
    ((processToolCall tc c).2).content = "Unrecognized action." ∧
    ((processToolCall tc c).2).name = tc.name ∧
    ((processToolCall tc c).2).tool_call_id = tc.id := by
  simp only [registered_tool_names, List.mem_cons, List.not_mem_nil, or_false, not_or] at h
  obtain ⟨-, h1, h2, h3, h4⟩ := h
  rw [processToolCall_other tc c h1 h2 h3 h4]
  exact ⟨rfl, rfl, rfl, rfl⟩

/-- C5 at a concrete unregistered request name. -/
theorem C5_unregistered_no_mutation_witness :
    (⟨"make_tea", ⟨"", [], []⟩, "w5"⟩ : ToolCall).name ∉ registered_tool_names ∧
    ((processToolCall ⟨"make_tea", ⟨"", [], []⟩, "w5"⟩ ⟨["Latte (Oat)"], false, []⟩).1
        = ⟨["Latte (Oat)"], false, []⟩ ∧
     ((processToolCall ⟨"make_tea", ⟨"", [], []⟩, "w5"⟩ ⟨["Latte (Oat)"], false, []⟩).2).content
        = "Unrecognized action." ∧
     ((processToolCall ⟨"make_tea", ⟨"", [], []⟩, "w5"⟩ ⟨["Latte (Oat)"], false, []⟩).2).name
        = (⟨"make_tea", ⟨"", [], []⟩, "w5"⟩ : ToolCall).name ∧
     ((processToolCall ⟨"make_tea", ⟨"", [], []⟩, "w5"⟩
          ⟨["Latte (Oat)"], false, []⟩).2).tool_call_id
        = (⟨"make_tea", ⟨"", [], []⟩, "w5"⟩ : ToolCall).id) :=
  ⟨by decide,
   C5_unregistered_no_mutation ⟨"make_tea", ⟨"", [], []⟩, "w5"⟩ ⟨["Latte (Oat)"], false, []⟩
     (by decide)⟩

/-- C7: a `confirm_order` invocation mutates nothing — the loop state
is returned unchanged — and its reply restates the full order as held
in the state, comma-joined, followed by a request for confirmation. -/
theorem C7_confirm_order_no_mutation (tc : ToolCall) (c : Core)
    (h : tc.name = "confirm_order") :
    (processToolCall tc c).1 = c ∧
    ((processToolCall tc c).2).content
      = "Your order is: " ++ String.intercalate ", " c.order ++ ". Is this correct?" := by
  rw [processToolCall_confirm tc c h]
  exact ⟨rfl, rfl⟩

/-- C7 at a concrete two-item order. -/
theorem C7_confirm_order_no_mutation_witness :
    (⟨"confirm_order", ⟨"", [], []⟩, "w7"⟩ : ToolCall).name = "confirm_order" ∧
    ((processToolCall ⟨"confirm_order", ⟨"", [], []⟩, "w7"⟩
        ⟨["Latte (Oat)", "Espresso (no modifiers)"], false, []⟩).1
      = ⟨["Latte (Oat)", "Espresso (no modifiers)"], false, []⟩ ∧
     ((processToolCall ⟨"confirm_order", ⟨"", [], []⟩, "w7"⟩
        ⟨["Latte (Oat)", "Espresso (no modifiers)"], false, []⟩).2).content
      = "Your order is: " ++
          String.intercalate ", " ["Latte (Oat)", "Espresso (no modifiers)"] ++
          ". Is this correct?") :=
  ⟨rfl, C7_confirm_order_no_mutation ⟨"confirm_order", ⟨"", [], []⟩, "w7"⟩
    ⟨["Latte (Oat)", "Espresso (no modifiers)"], false, []⟩ rfl⟩

/-- C8: a `clear_order` invocation always yields the empty order,
whatever the prior contents, and a second `clear_order` immediately
after yields the same empty order and the same reply text. -/
theorem C8_clear_order_idempotent (tc tc2 : ToolCall) (c : Core)
    (h : tc.name = "clear_order") (h2 : tc2.name = "clear_order") :
    ((processToolCall tc c).1).order = [] ∧
    ((processToolCall tc2 (processToolCall tc c).1).1).order
      = ((processToolCall tc c).1).order ∧
    ((processToolCall tc c).2).content = "Order cleared." ∧
    ((processToolCall tc2 (processToolCall tc c).1).2).content
      = ((processToolCall tc c).2).content := by
  rw [processToolCall_clear tc c h, processToolCall_clear tc2 _ h2]
  exact ⟨rfl, rfl, rfl, rfl⟩

/-- C8 at a concrete non-empty order. -/
theorem C8_clear_order_idempotent_witness :
    ((⟨"clear_order", ⟨"", [], []⟩, "w8a"⟩ : ToolCall).name = "clear_order" ∧
     (⟨"clear_order", ⟨"", [], []⟩, "w8b"⟩ : ToolCall).name = "clear_order") ∧
    (((processToolCall ⟨"clear_order", ⟨"", [], []⟩, "w8a"⟩
        ⟨["Mocha (Caramel)"], false, []⟩).1).order = [] ∧
     ((processToolCall ⟨"clear_order", ⟨"", [], []⟩, "w8b"⟩
        (processToolCall ⟨"clear_order", ⟨"", [], []⟩, "w8a"⟩
          ⟨["Mocha (Caramel)"], false, []⟩).1).1).order
      = ((processToolCall ⟨"clear_order", ⟨"", [], []⟩, "w8a"⟩
          ⟨["Mocha (Caramel)"], false, []⟩).1).order ∧
     ((processToolCall ⟨"clear_order", ⟨"", [], []⟩, "w8a"⟩
        ⟨["Mocha (Caramel)"], false, []⟩).2).content = "Order cleared." ∧
     ((processToolCall ⟨"clear_order", ⟨"", [], []⟩, "w8b"⟩
        (processToolCall ⟨"clear_order", ⟨"", [], []⟩, "w8a"⟩
          ⟨["Mocha (Caramel)"], false, []⟩).1).2).content
      = ((processToolCall ⟨"clear_order", ⟨"", [], []⟩, "w8a"⟩
          ⟨["Mocha (Caramel)"], false, []⟩).2).content) :=
  ⟨⟨rfl, rfl⟩,
   C8_clear_order_idempotent ⟨"clear_order", ⟨"", [], []⟩, "w8a"⟩
     ⟨"clear_order", ⟨"", [], []⟩, "w8b"⟩ ⟨["Mocha (Caramel)"], false, []⟩ rfl rfl⟩

/-- C10: with the credential absent the program fails at process
start with the fatal configuration error, before any request batch is
processed (the error is the same for every batch list); with a
non-empty credential present, the run never fails on this account. -/
theorem C10_startup_credential_check (k : String) (hk : k ≠ "")
    (batches : List (List ToolCall × List Nat)) :
    run_app none batches
      = Except.error "Google API key not found! Add it to a .env file." ∧
    run_app (some k) batches = Except.ok (runSteps initial_state batches) := by
  constructor
  · rfl
  · simp [run_app, startup_check, truthy, hk]

/-- C10 with a concrete non-empty key and a one-step batch list. -/
theorem C10_startup_credential_check_witness :
    ("test-key" ≠ "") ∧
    (run_app none [([⟨"get_menu", ⟨"", [], []⟩, "g1"⟩], [0])]
       = Except.error "Google API key not found! Add it to a .env file." ∧
     run_app (some "test-key") [([⟨"get_menu", ⟨"", [], []⟩, "g1"⟩], [0])]
       = Except.ok (runSteps initial_state [([⟨"get_menu", ⟨"", [], []⟩, "g1"⟩], [0])])) :=
  ⟨by decide,
   C10_startup_credential_check "test-key" (by decide)
     [([⟨"get_menu", ⟨"", [], []⟩, "g1"⟩], [0])]⟩

end Barista
